import Mathlib

/-!
Verification development for the `sonic` Discord/Spotify bot.

This file gives a shallow embedding, in Lean, of the operations of the
resilient Spotify client (`src/spotify_client.rs`), the playlist manager
(`src/playlist_manager.rs`) and the discovery generator
(`src/discovery_generator.rs`), together with theorems settling the
behavioural claims about those operations.

Modelling conventions:
* Rust `u64` arithmetic is modelled by `Nat` with an explicit `% 2 ^ 64`
  at every operation where the Rust release build wraps on overflow.
* Network traffic is modelled by a scripted environment: the wire answers
  of successive HTTP attempts, the outcomes of token refreshes and the
  draws of the jitter RNG are lists inside a `ClientState`, consumed in
  order.  The sleeps performed and the number of HTTP attempts issued are
  recorded in the same state.
* Fallible Rust functions returning `Result` become Lean functions
  returning `Except` paired with the updated state.
-/

namespace Sonic

/-- `u64` modulus: Rust release builds wrap `u64` arithmetic at `2 ^ 64`. -/
def U64MOD : Nat := 2 ^ 64

/-- The retry-relevant part of `BotConfig` (`src/models.rs`).  The remaining
configuration fields (tokens, channel and playlist identifiers) do not enter
the operations embedded here: playlist contents are carried directly by the
environments below. -/
structure BotConfig where
  max_retry_attempts : Nat
  retry_base_delay_ms : Nat
  retry_max_delay_ms : Nat
deriving DecidableEq, Repr

/-- `SpotifyError` (`src/error.rs`). -/
inductive SpotifyError where
  | AuthenticationFailed (msg : String)
  | TokenExpired
  | TokenRefreshFailed (msg : String)
  | ApiRequestFailed (status : Nat) (message : String)
  | RateLimitExceeded (retry_after_ms : Nat)
  | TrackNotFound (track_id : String)
  | PlaylistNotFound (playlist_id : String)
  | PlaylistAccessDenied (playlist_id : String)
  | InvalidTrackUri (uri : String)
  | NetworkError (msg : String)
  | JsonParsingError (msg : String)
deriving DecidableEq, Repr

/-- One scripted answer of the wire to one HTTP attempt: either a transport
failure (`reqwest::Error` on `send()`), or a response carrying a status code,
the optional `Retry-After` header value, whether the body parses as JSON, and
the body text. -/
inductive HttpEvent where
  | netFail (msg : String)
  | resp (status : Nat) (retryAfter : Option String) (parseOk : Bool) (body : String)
deriving DecidableEq, Repr

/-- The state of one `SpotifyClient` together with its scripted environment.
`access_token`/`token_fresh` abstract the token plus its expiry-versus-now
comparison (`token_fresh = true` means the expiry lies strictly beyond the
`now + 300 s` refresh buffer).  `refreshScript` lists the outcomes of future
token refresh exchanges (`some tok` = success yielding token `tok`, `none` =
HTTP failure).  `events` lists the wire answers of future HTTP attempts.
`jitterScript` lists the future draws of the RNG used for jitter.
`httpAttempts` counts HTTP attempts issued and `sleeps` records every sleep
duration, in milliseconds, in order. -/
structure ClientState where
  access_token : Option String
  token_fresh : Bool
  refreshScript : List (Option String)
  events : List HttpEvent
  jitterScript : List Nat
  httpAttempts : Nat
  sleeps : List Nat
deriving DecidableEq, Repr

/-- Record a `tokio::time::sleep` of `ms` milliseconds. -/
def sleepFor (st : ClientState) (ms : Nat) : ClientState :=
  { st with sleeps := st.sleeps ++ [ms] }

/-- Issue one HTTP attempt: consume the next scripted wire answer.  An
exhausted script behaves as a transport failure. -/
def popEvent (st : ClientState) : HttpEvent × ClientState :=
  match st.events with
  | [] => (.netFail ("connection refused"), { st with httpAttempts := st.httpAttempts + 1 })
  | e :: rest => (e, { st with events := rest, httpAttempts := st.httpAttempts + 1 })

/-- Consume the next scripted jitter draw (an exhausted script draws 0). -/
def popJitter (st : ClientState) : Nat × ClientState :=
  (st.jitterScript.headD 0, { st with jitterScript := st.jitterScript.tail })

/-- `refresh_access_token` (`src/spotify_client.rs:47`): one token exchange
against the authorization endpoint, with the outcome scripted. -/
def refresh_access_token (st : ClientState) : Except SpotifyError Unit × ClientState :=
  match st.refreshScript with
  | [] =>
      (.error (.TokenRefreshFailed ("HTTP 500: ")), st)
  | none :: rest =>
      (.error (.TokenRefreshFailed ("HTTP 400: ")), { st with refreshScript := rest })
  | some tok :: rest =>
      (.ok (), { st with access_token := some tok, token_fresh := true, refreshScript := rest })

/-- `needs_token_refresh` (`src/spotify_client.rs:94`): refresh when no token
is held, or when `now + buffer` has reached the recorded expiry (the latter
comparison is abstracted by the boolean `token_fresh`). -/
def needs_token_refresh (st : ClientState) : Bool :=
  st.access_token.isNone || !st.token_fresh

/-- `ensure_valid_token` (`src/spotify_client.rs:106`). -/
def ensure_valid_token (st : ClientState) : Except SpotifyError Unit × ClientState :=
  if needs_token_refresh st then refresh_access_token st else (.ok (), st)

/-- `build_headers` (`src/spotify_client.rs:156`): fails exactly when no
access token is held (header construction itself is abstracted). -/
def build_headers (st : ClientState) : Except SpotifyError Unit :=
  match st.access_token with
  | none => .error (.AuthenticationFailed ("No access token available"))
  | some _ => .ok ()

/-- Decimal-digit accumulator of Rust `str::parse::<u64>()` (the `u64`
overflow check is applied once at the end by `parse_u64`). -/
def parseDigitsGo : List Char → Nat → Option Nat
  | [], acc => some acc
  | c :: rest, acc =>
    if c.isDigit then parseDigitsGo rest (acc * 10 + (c.toNat - 48)) else none

/-- Rust `str::parse::<u64>()`: an optional leading `+`, then at least one
decimal digit, succeeding only when the value fits in a `u64`. -/
def parse_u64 (s : String) : Option Nat :=
  let t := match s.data with
    | '+' :: rest => rest
    | cs => cs
  match t with
  | [] => none
  | _ =>
    match parseDigitsGo t 0 with
    | some v => if v < U64MOD then some v else none
    | none => none

/-- Rust `str::starts_with` for plain string patterns. -/
def strStartsWith (s pre : String) : Bool :=
  pre.data.isPrefixOf s.data

/-- Rust `str::strip_prefix` once `starts_with` has succeeded: drop the
pattern's characters. -/
def strDropPre (s pre : String) : String :=
  String.mk (s.data.drop pre.data.length)

/-- The `retry_after_ms` computed in the 429 arm of `handle_response`
(`src/spotify_client.rs:261-268`): the parsed `Retry-After` header value with
default 1, times 1000 (a wrapping `u64` multiplication). -/
def retryAfterMs (header : Option String) : Nat :=
  (((header.bind parse_u64).getD 1) * 1000) % U64MOD

/-- Substring test on character lists, used to model Rust
`str::contains` on the error body. -/
def listContainsSub (pat : List Char) : List Char → Bool
  | [] => pat.isEmpty
  | c :: rest => pat.isPrefixOf (c :: rest) || listContainsSub pat rest

/-- Rust `str::contains` for plain substring patterns. -/
def strContains (s pat : String) : Bool :=
  listContainsSub pat.data s.data

/-- `handle_response` (`src/spotify_client.rs:250-307`): classify one HTTP
response into a parsed body or a `SpotifyError`. -/
def handle_response (status : Nat) (retryAfter : Option String) (parseOk : Bool)
    (body : String) : Except SpotifyError String :=
  if status = 200 ∨ status = 201 then
    if parseOk then .ok body
    else .error (.JsonParsingError (body))
  else if status = 401 then
    .error .TokenExpired
  else if status = 429 then
    .error (.RateLimitExceeded (retryAfterMs retryAfter))
  else if status = 404 then
    if strContains body ("track") then .error (.TrackNotFound ("unknown"))
    else if strContains body ("playlist") then .error (.PlaylistNotFound ("unknown"))
    else if body = "" then
      .error (.ApiRequestFailed 404 ("404 Not Found - endpoint may not exist or resource not found"))
    else
      .error (.ApiRequestFailed 404 (body))
  else if status = 403 then
    if strContains body ("playlist") then .error (.PlaylistAccessDenied ("unknown"))
    else .error (.ApiRequestFailed 403 (body))
  else
    .error (.ApiRequestFailed status (body))

/-- `calculate_backoff_delay` (`src/spotify_client.rs:140-154`), with the RNG
draw made explicit: `jitter_draw` determines the uniformly random jitter via
`jitter_draw % (2 * jitter_range + 1)`, which ranges over exactly the Rust
`gen_range(0..=jitter_range * 2)` outcomes.  The `% U64MOD` occurrences mark
the points where `u64` arithmetic wraps. -/
def calculate_backoff_delay (cfg : BotConfig) (attempt : Nat) (jitter_draw : Nat) : Nat :=
  let base_delay := cfg.retry_base_delay_ms
  let max_delay := cfg.retry_max_delay_ms
  let exponential_delay := (base_delay * 2 ^ (attempt - 1)) % U64MOD
  let delay_with_cap := min exponential_delay max_delay
  let jitter_range := delay_with_cap / 4
  let jitter := jitter_draw % (2 * jitter_range + 1)
  let final_delay := (delay_with_cap - jitter_range + jitter) % U64MOD
  max final_delay 100

/-- `should_retry_error` (`src/spotify_client.rs:115-137`): decide whether an
error is retryable; for rate limits this sleeps the server-specified delay,
and for an expired token it forces a refresh (whose failure propagates). -/
def should_retry_error (st : ClientState) (e : SpotifyError) :
    Except SpotifyError Bool × ClientState :=
  match e with
  | .RateLimitExceeded retry_after_ms => (.ok true, sleepFor st retry_after_ms)
  | .NetworkError _ => (.ok true, st)
  | .ApiRequestFailed status _ =>
      (.ok (decide (500 ≤ status) || status == 429 || status == 408), st)
  | .TokenExpired =>
      match refresh_access_token st with
      | (.ok _, st2) => (.ok true, st2)
      | (.error e2, st2) => (.error e2, st2)
  | _ => (.ok false, st)

/-- The retry loop shared verbatim by `make_get_request`
(`src/spotify_client.rs:170-207`), `make_post_request` (209-247) and the PUT
loop of `replace_playlist_tracks` (625-659).  The source counts `attempt`
upward and exits on `attempt >= max_attempts`; here `attempt` is the count of
attempts already made and `fuel = max_retry_attempts - (attempt + 1)`, so
`fuel = 0` is exactly the source's exhaustion condition for the current
attempt. -/
def attempt_go (cfg : BotConfig) : Nat → Nat → ClientState →
    Except SpotifyError String × ClientState
  | attempt, fuel, st =>
    match build_headers st with
    | .error e => (.error e, st)
    | .ok _ =>
      match popEvent st with
      | (.netFail m, st1) => (.error (.NetworkError m), st1)
      | (.resp status retryAfter parseOk body, st1) =>
        match handle_response status retryAfter parseOk body with
        | .ok v => (.ok v, st1)
        | .error e =>
          match fuel with
          | 0 => (.error e, st1)
          | fuel' + 1 =>
            match should_retry_error st1 e with
            | (.error e2, st2) => (.error e2, st2)
            | (.ok false, st2) => (.error e, st2)
            | (.ok true, st2) =>
              let (j, st3) := popJitter st2
              let d := calculate_backoff_delay cfg (attempt + 1) j
              attempt_go cfg (attempt + 1) fuel' (sleepFor st3 d)

/-- `make_get_request` (`src/spotify_client.rs:170-207`). -/
def make_get_request (cfg : BotConfig) (st : ClientState) :
    Except SpotifyError String × ClientState :=
  match ensure_valid_token st with
  | (.error e, st1) => (.error e, st1)
  | (.ok _, st1) => attempt_go cfg 0 (cfg.max_retry_attempts - 1) st1

/-- `replace_playlist_tracks` (`src/spotify_client.rs:611-662`): reject an
empty URI list, then run the PUT with the shared retry loop, discarding the
parsed body on success. -/
def replace_playlist_tracks (cfg : BotConfig) (st : ClientState)
    (track_uris : List String) : Except SpotifyError Unit × ClientState :=
  if track_uris.isEmpty then
    (.error (.ApiRequestFailed 400 ("At least one track URI is required")), st)
  else
    match ensure_valid_token st with
    | (.error e, st1) => (.error e, st1)
    | (.ok _, st1) =>
      match attempt_go cfg 0 (cfg.max_retry_attempts - 1) st1 with
      | (.ok _, st2) => (.ok (), st2)
      | (.error e, st2) => (.error e, st2)

/-- `TrackInfo` (`src/models.rs`).  `external_urls` (a `HashMap`) is modelled
as an association list. -/
structure TrackInfo where
  id : String
  uri : String
  name : String
  artists : List String
  album : String
  duration_ms : Nat
  external_urls : List (String × String)
  popularity : Option Nat
  preview_url : Option String
  explicit : Bool
deriving DecidableEq, Repr

/-- The paging loop of `get_playlist_tracks` (`src/spotify_client.rs:346-376`)
over a well-behaved listing backend.  `remaining` is the listing suffix from
the current offset onward (the source requests `offset`/`limit` slices and
advances `offset` by the page limit 100, which corresponds to dropping 100
entries here); `none` entries are items whose `track` object is missing or
fails `parse_track_info` and are skipped.  Returns the accumulated tracks and
the number of page requests issued. -/
def get_playlist_tracks_go (remaining : List (Option TrackInfo)) : List TrackInfo × Nat :=
  if (remaining.take 100).length < 100 then ((remaining.take 100).filterMap id, 1)
  else
    let (rest, n) := get_playlist_tracks_go (remaining.drop 100)
    ((remaining.take 100).filterMap id ++ rest, n + 1)
termination_by remaining.length
decreasing_by
  simp only [List.length_take, List.length_drop] at *
  omega

/-- `get_playlist_tracks` (`src/spotify_client.rs:346-376`) on a playlist
whose listing is `items`. -/
def get_playlist_tracks (items : List (Option TrackInfo)) : List TrackInfo × Nat :=
  get_playlist_tracks_go items

/-- The paging loop of `check_track_exists_in_playlist`
(`src/spotify_client.rs:310-343`): scan pages of 100 item URIs (`none` for a
malformed item), short-circuiting on a match, stopping at the first short
page. -/
def check_track_exists_go (items : List (Option String)) (track_uri : String) : Bool :=
  if (items.take 100).contains (some track_uri) then true
  else if (items.take 100).length < 100 then false
  else check_track_exists_go (items.drop 100) track_uri
termination_by items.length
decreasing_by
  simp only [List.length_take, List.length_drop] at *
  omega

/-- `check_track_exists_in_playlist` (`src/spotify_client.rs:310-343`). -/
def check_track_exists_in_playlist (items : List (Option String)) (track_uri : String) : Bool :=
  check_track_exists_go items track_uri

/-- `AddTrackResult` (`src/models.rs`). -/
inductive AddTrackResult where
  | Added (track : TrackInfo)
  | AlreadyExists (track : TrackInfo)
  | Failed (msg : String)
deriving DecidableEq, Repr

/-- `PlaylistError` (`src/error.rs`), restricted to the variants the embedded
operations construct. -/
inductive PlaylistError where
  | AddTrackFailed (msg : String)
  | RetrieveTracksFailed (msg : String)
  | ReplaceTracksFailed (msg : String)
deriving DecidableEq, Repr

/-- Rust `format!("{:?}", e)` for `SpotifyError` (its derived `Debug`
representation); `\x22` is the double quote `Debug` puts around strings. -/
def spotifyErrorDebug (e : SpotifyError) : String :=
  match e with
  | .AuthenticationFailed m => "AuthenticationFailed(\x22" ++ m ++ "\x22)"
  | .TokenExpired => "TokenExpired"
  | .TokenRefreshFailed m => "TokenRefreshFailed(\x22" ++ m ++ "\x22)"
  | .ApiRequestFailed s m =>
      "ApiRequestFailed \x7b status: " ++ toString s ++ ", message: \x22" ++ m ++ "\x22 \x7d"
  | .RateLimitExceeded r =>
      "RateLimitExceeded \x7b retry_after_ms: " ++ toString r ++ " \x7d"
  | .TrackNotFound t => "TrackNotFound \x7b track_id: \x22" ++ t ++ "\x22 \x7d"
  | .PlaylistNotFound p => "PlaylistNotFound \x7b playlist_id: \x22" ++ p ++ "\x22 \x7d"
  | .PlaylistAccessDenied p => "PlaylistAccessDenied \x7b playlist_id: \x22" ++ p ++ "\x22 \x7d"
  | .InvalidTrackUri u => "InvalidTrackUri \x7b uri: \x22" ++ u ++ "\x22 \x7d"
  | .NetworkError m => "NetworkError(\x22" ++ m ++ "\x22)"
  | .JsonParsingError m => "JsonParsingError(\x22" ++ m ++ "\x22)"

/-- Injection of `Except` into `Sum`, used to decide equality of scripted
call outcomes. -/
def exceptToSum {ε α : Type} : Except ε α → ε ⊕ α
  | .error e => .inl e
  | .ok a => .inr a

instance {ε α : Type} [DecidableEq ε] [DecidableEq α] : DecidableEq (Except ε α) :=
  fun x y =>
    decidable_of_iff (exceptToSum x = exceptToSum y)
      (by cases x <;> cases y <;> simp [exceptToSum])

/-- Environment of one `PlaylistManager` append operation.  `playlist` holds
the URIs currently in the collaborative playlist, in order (its paginated GET
endpoints answer from this list).  `trackInfoResult` scripts the outcome of
the `get_track_info` lookup for the track being appended, `postResult` the
outcome the wire would give the add-POST.  `postsIssued` counts add-POST
requests issued. -/
structure ManagerEnv where
  playlist : List String
  trackInfoResult : Except SpotifyError TrackInfo
  postResult : Except SpotifyError Unit
  postsIssued : Nat
deriving DecidableEq, Repr

/-- `add_track_to_playlist` (`src/spotify_client.rs:479-493`): re-check for
duplicates, then POST the URI; a successful POST appends the track to the
playlist on the server. -/
def add_track_to_playlist (env : ManagerEnv) (track_uri : String) :
    Except SpotifyError Unit × ManagerEnv :=
  if check_track_exists_in_playlist (env.playlist.map some) track_uri then
    (.error (.InvalidTrackUri ("Track " ++ track_uri ++ " already exists in playlist")), env)
  else
    let env1 := { env with postsIssued := env.postsIssued + 1 }
    match env.postResult with
    | .ok _ => (.ok (), { env1 with playlist := env1.playlist ++ [track_uri] })
    | .error e => (.error e, env1)

/-- `extract_track_id_from_uri` (`src/playlist_manager.rs:167-175`). -/
def extract_track_id_from_uri (track_uri : String) : Except PlaylistError String :=
  if strStartsWith track_uri ("spotify:track:") then
    .ok (strDropPre track_uri ("spotify:track:"))
  else
    .error (.AddTrackFailed ("Invalid Spotify track URI format: " ++ track_uri))

/-- `add_track_to_collaborative` (`src/playlist_manager.rs:25-63`): extract
the track id, fetch its metadata, check for duplicates, and add.  The
scripted `trackInfoResult` stands for the `get_track_info` call; the
duplicate check pages over the playlist contents. -/
def add_track_to_collaborative (env : ManagerEnv) (track_uri : String) :
    Except PlaylistError AddTrackResult × ManagerEnv :=
  match extract_track_id_from_uri track_uri with
  | .error e => (.error e, env)
  | .ok _track_id =>
    match env.trackInfoResult with
    | .error (.TrackNotFound track_id) =>
        (.error (.AddTrackFailed ("Track not found: " ++ track_id)), env)
    | .error e =>
        (.error (.AddTrackFailed (spotifyErrorDebug e)), env)
    | .ok track_info =>
      if check_track_exists_in_playlist (env.playlist.map some) track_uri then
        (.ok (.AlreadyExists track_info), env)
      else
        match add_track_to_playlist env track_uri with
        | (.ok _, env2) => (.ok (.Added track_info), env2)
        | (.error e, env2) =>
            (.ok (.Failed ("Failed to add track \x27" ++ track_info.name ++ "\x27: " ++
              spotifyErrorDebug e)), env2)

/-- `replace_discovery_playlist` (`src/playlist_manager.rs:98-115`): reject an
empty URI list before any client call, otherwise delegate to
`replace_playlist_tracks` and wrap its error. -/
def replace_discovery_playlist (cfg : BotConfig) (st : ClientState)
    (track_uris : List String) : Except PlaylistError Unit × ClientState :=
  if track_uris.isEmpty then
    (.error (.ReplaceTracksFailed ("Cannot replace playlist with empty track list")), st)
  else
    match replace_playlist_tracks cfg st track_uris with
    | (.ok _, st1) => (.ok (), st1)
    | (.error e, st1) =>
        (.error (.ReplaceTracksFailed ("Failed to replace discovery playlist tracks: " ++
          spotifyErrorDebug e)), st1)

/-- `DiscoveryError` (`src/error.rs`). -/
inductive DiscoveryError where
  | RecommendationGenerationFailed (msg : String)
  | InsufficientSeedTracks (count : Nat) (required : Nat)
  | SeedSelectionFailed (msg : String)
  | PlaylistCreationFailed (msg : String)
deriving DecidableEq, Repr

/-- The recent-tracks window of `select_seed_tracks`
(`src/discovery_generator.rs:88-96`): the whole playlist when it has at most
50 tracks, otherwise the last 50 tracks in reversed (most-recent-first)
order, exactly as `into_iter().rev().take(50).collect()` produces them. -/
def recentWindow (all_tracks : List TrackInfo) : List TrackInfo :=
  if all_tracks.length ≤ 50 then all_tracks
  else all_tracks.reverse.take 50

/-- `select_seed_tracks` (`src/discovery_generator.rs:75-123`), with the
random sampling made explicit: `sel` lists the indices into the recent-tracks
window picked by `choose_multiple`.  A valid sampling outcome has
`min 5 (recentWindow all_tracks).length` pairwise distinct in-range indices;
the theorems below quantify over such outcomes. -/
def select_seed_tracks (all_tracks : List TrackInfo) (sel : List Nat) :
    Except DiscoveryError (List String) :=
  if all_tracks.isEmpty then
    .error (.InsufficientSeedTracks 0 1)
  else
    let recent_tracks := recentWindow all_tracks
    let selected := sel.filterMap fun i => recent_tracks[i]?
    .ok (selected.map fun t => t.id)

/-- The inner accept loop of `get_recommendations`
(`src/discovery_generator.rs:168-178`) over the remainder of one seed's
search results: accept each track whose id is new (the `HashSet` of seen ids
is modelled as a list), and break as soon as 20 tracks are accumulated. -/
def accept_from_search (rs : List TrackInfo) (acc : List TrackInfo) (seen : List String) :
    List TrackInfo × List String :=
  match rs with
  | [] => (acc, seen)
  | t :: rest =>
    if seen.contains t.id then accept_from_search rest acc seen
    else
      let acc2 := acc ++ [t]
      let seen2 := t.id :: seen
      if acc2.length ≥ 20 then (acc2, seen2)
      else accept_from_search rest acc2 seen2

/-- The per-seed loop of `get_recommendations`
(`src/discovery_generator.rs:145-190`).  Each entry of `seed_results` is the
outcome for one seed: `none` when the metadata lookup or the search failed
(the seed is skipped), `some rs` the search results, whose first entry is
discarded by `skip(1)`.  Stops once 20 tracks are accumulated. -/
def get_recommendations_go : List (Option (List TrackInfo)) → List TrackInfo →
    List String → List TrackInfo × List String
  | [], acc, seen => (acc, seen)
  | none :: rest, acc, seen => get_recommendations_go rest acc seen
  | some rs :: rest, acc, seen =>
    let (acc2, seen2) := accept_from_search (rs.drop 1) acc seen
    if acc2.length ≥ 20 then (acc2, seen2)
    else get_recommendations_go rest acc2 seen2

/-- `get_recommendations` (`src/discovery_generator.rs:131-201`): fail on an
empty seed list, accumulate candidates across the seeds, and fail when zero
candidates were produced. -/
def get_recommendations (seed_results : List (Option (List TrackInfo))) :
    Except DiscoveryError (List TrackInfo) :=
  if seed_results.isEmpty then
    .error (.SeedSelectionFailed ("No seed tracks provided for recommendations"))
  else
    let (discovery_tracks, _) := get_recommendations_go seed_results [] []
    if discovery_tracks.isEmpty then
      .error (.RecommendationGenerationFailed
        ("Could not generate any recommendations using search API"))
    else
      .ok discovery_tracks

/-- Concrete sample track used by witnesses and counterexamples. -/
def trackA : TrackInfo :=
  ⟨"a", "spotify:track:abc", "Song A", ["Artist A"], "Album", 200, [], none, none, false⟩

/-- Concrete sample track with identifier `x`. -/
def trackX : TrackInfo :=
  ⟨"x", "spotify:track:xxx", "Song X", ["Artist X"], "Album", 180, [], none, none, false⟩

/-- Concrete sample track with identifier `y`. -/
def trackY : TrackInfo :=
  ⟨"y", "spotify:track:yyy", "Song Y", ["Artist Y"], "Album", 180, [], none, none, false⟩

/-- Concrete sample track with identifier `z`. -/
def trackZ : TrackInfo :=
  ⟨"z", "spotify:track:zzz", "Song Z", ["Artist Z"], "Album", 180, [], none, none, false⟩

/-! ## Helper lemmas -/

theorem check_go_spec_aux (n : Nat) : ∀ (items : List (Option String)) (u : String),
    items.length ≤ n → check_track_exists_go items u = decide (some u ∈ items) := by
  induction n with
  | zero =>
    intro items u hlen
    have : items = [] := List.eq_nil_of_length_eq_zero (by omega)
    subst this
    rw [check_track_exists_go]
    simp
  | succ n ih =>
    intro items u hlen
    rw [check_track_exists_go]
    by_cases h1 : some u ∈ items.take 100
    · have hb : (items.take 100).contains (some u) = true := by
        simp only [List.contains]
        exact List.elem_iff.mpr h1
      rw [hb]
      have hmem : some u ∈ items := List.take_subset _ _ h1
      simp [hmem]
    · have hc : (items.take 100).contains (some u) = false := by
        simp only [List.contains, Bool.eq_false_iff]
        intro hx
        exact h1 (List.elem_iff.mp hx)
      rw [hc]
      simp only [Bool.false_eq_true, if_false]
      by_cases h2 : (items.take 100).length < 100
      · have heq : items.take 100 = items :=
          List.take_of_length_le (by simp [List.length_take] at h2; omega)
        rw [heq] at h1
        rw [if_pos h2]
        simp [h1]
      · have hlen100 : 100 ≤ items.length := by
          simp only [List.length_take] at h2
          omega
        rw [if_neg h2]
        rw [ih (items.drop 100) u (by simp [List.length_drop]; omega)]
        have hiff : (some u ∈ items) ↔ (some u ∈ items.drop 100) := by
          constructor
          · intro hu
            have hsplit : some u ∈ items.take 100 ++ items.drop 100 := by
              rw [List.take_append_drop]; exact hu
            rcases List.mem_append.mp hsplit with h | h
            · exact absurd h h1
            · exact h
          · intro hu; exact List.drop_subset _ _ hu
        simp [hiff]

theorem check_go_spec (items : List (Option String)) (u : String) :
    check_track_exists_go items u = decide (some u ∈ items) :=
  check_go_spec_aux items.length items u le_rfl

theorem check_spec (l : List String) (u : String) :
    check_track_exists_in_playlist (l.map some) u = decide (u ∈ l) := by
  rw [check_track_exists_in_playlist, check_go_spec]
  simp

theorem add_track_success_eq (env : ManagerEnv) (uri : String) (info : TrackInfo)
    (huri : strStartsWith uri ("spotify:track:") = true)
    (hnot : uri ∉ env.playlist)
    (hinfo : env.trackInfoResult = .ok info)
    (hpost : env.postResult = .ok ()) :
    add_track_to_collaborative env uri =
      (.ok (.Added info),
        { env with playlist := env.playlist ++ [uri], postsIssued := env.postsIssued + 1 }) := by
  have hchk : check_track_exists_in_playlist (env.playlist.map some) uri = false := by
    rw [check_spec]
    exact decide_eq_false hnot
  unfold add_track_to_collaborative extract_track_id_from_uri add_track_to_playlist
  rw [if_pos huri, hinfo, hchk]
  simp only [Bool.false_eq_true, if_false, hpost]

theorem add_track_already_eq (env : ManagerEnv) (uri : String) (info : TrackInfo)
    (huri : strStartsWith uri ("spotify:track:") = true)
    (hmem : uri ∈ env.playlist)
    (hinfo : env.trackInfoResult = .ok info) :
    add_track_to_collaborative env uri = (.ok (.AlreadyExists info), env) := by
  have hchk : check_track_exists_in_playlist (env.playlist.map some) uri = true := by
    rw [check_spec]
    exact decide_eq_true hmem
  unfold add_track_to_collaborative extract_track_id_from_uri
  rw [if_pos huri, hinfo, hchk]
  simp

theorem add_track_writefail_eq (env : ManagerEnv) (uri : String) (info : TrackInfo)
    (e : SpotifyError)
    (huri : strStartsWith uri ("spotify:track:") = true)
    (hnot : uri ∉ env.playlist)
    (hinfo : env.trackInfoResult = .ok info)
    (hpost : env.postResult = .error e) :
    add_track_to_collaborative env uri =
      (.ok (.Failed ("Failed to add track \x27" ++ info.name ++ "\x27: " ++ spotifyErrorDebug e)),
       { env with postsIssued := env.postsIssued + 1 }) := by
  have hchk : check_track_exists_in_playlist (env.playlist.map some) uri = false := by
    rw [check_spec]
    exact decide_eq_false hnot
  unfold add_track_to_collaborative extract_track_id_from_uri add_track_to_playlist
  rw [if_pos huri, hinfo, hchk]
  simp only [Bool.false_eq_true, if_false, hpost]

theorem should_retry_preserves (st : ClientState) (e : SpotifyError) :
    (should_retry_error st e).2.httpAttempts = st.httpAttempts ∧
    ((∃ t, st.access_token = some t) → ∃ t, (should_retry_error st e).2.access_token = some t) := by
  constructor
  · cases e <;> simp [should_retry_error, sleepFor, refresh_access_token]
    rcases hrs : st.refreshScript with _ | ⟨_ | t, rest⟩ <;> simp [hrs]
  · rintro ⟨x, hx⟩
    cases e <;> simp [should_retry_error, sleepFor, refresh_access_token, hx]
    rcases hrs : st.refreshScript with _ | ⟨_ | t, rest⟩ <;> simp [hrs, hx]

theorem attempt_go_attempts_ge (cfg : BotConfig) :
    ∀ (fuel attempt : Nat) (st : ClientState),
    (∃ t, st.access_token = some t) →
    st.httpAttempts + 1 ≤ (attempt_go cfg attempt fuel st).2.httpAttempts := by
  intro fuel
  induction fuel with
  | zero =>
    intro attempt st ht
    obtain ⟨t, ht⟩ := ht
    rw [attempt_go]
    rw [show build_headers st = .ok () from by simp [build_headers, ht]]
    rcases hev : st.events with _ | ⟨e, evs⟩
    · simp [popEvent, hev]
    · rcases e with m | ⟨status, ra, pok, body⟩
      · simp [popEvent, hev]
      · simp only [popEvent, hev]
        rcases h : handle_response status ra pok body with verr | vok <;> simp
  | succ fuel ih =>
    intro attempt st ht
    obtain ⟨t, ht⟩ := ht
    rw [attempt_go]
    rw [show build_headers st = .ok () from by simp [build_headers, ht]]
    rcases hev : st.events with _ | ⟨e, evs⟩
    · simp [popEvent, hev]
    · rcases e with m | ⟨status, ra, pok, body⟩
      · simp [popEvent, hev]
      · simp only [popEvent, hev]
        rcases h : handle_response status ra pok body with verr | vok
        case ok => simp
        simp only []
        have hpres := should_retry_preserves
          { st with events := evs, httpAttempts := st.httpAttempts + 1 } verr
        rcases hsr : should_retry_error
            { st with events := evs, httpAttempts := st.httpAttempts + 1 } verr with ⟨r, st2⟩
        rw [hsr] at hpres
        simp only at hpres
        obtain ⟨hha, htok2⟩ := hpres
        rcases r with e2 | b
        · simp [hha]
        · rcases b with _ | _
          · simp [hha]
          · simp only []
            have hrec := ih (attempt + 1)
              (sleepFor (popJitter st2).2
                (calculate_backoff_delay cfg (attempt + 1) (popJitter st2).1))
              (by
                simp only [sleepFor, popJitter]
                exact htok2 ⟨t, by simp [ht]⟩)
            simp only [sleepFor, popJitter] at hrec
            simp only [sleepFor, popJitter]
            omega

theorem filterMap_id_map_some (l : List TrackInfo) : (l.map some).filterMap id = l := by
  rw [List.filterMap_map]
  simpa using List.filterMap_some l

theorem playlist_go_spec_aux (n : Nat) : ∀ (tracks : List TrackInfo), tracks.length ≤ n →
    get_playlist_tracks_go (tracks.map some) = (tracks, tracks.length / 100 + 1) := by
  induction n with
  | zero =>
    intro tracks h
    have : tracks = [] := List.eq_nil_of_length_eq_zero (by omega)
    subst this
    rw [get_playlist_tracks_go]
    simp
  | succ n ih =>
    intro tracks h
    rw [get_playlist_tracks_go]
    by_cases hlt : ((tracks.map some).take 100).length < 100
    · rw [if_pos hlt]
      have hlen : tracks.length < 100 := by
        simpa [List.length_take] using hlt
      have ht : (tracks.map some).take 100 = tracks.map some :=
        List.take_of_length_le (by simp [List.length_map]; omega)
      rw [ht, filterMap_id_map_some]
      have : tracks.length / 100 = 0 := Nat.div_eq_of_lt hlen
      rw [this]
    · rw [if_neg hlt]
      have hlen : 100 ≤ tracks.length := by
        simp only [List.length_take, List.length_map] at hlt
        omega
      rw [← List.map_drop]
      rw [ih (tracks.drop 100) (by simp [List.length_drop]; omega)]
      rw [← List.map_take, filterMap_id_map_some]
      have hcat : tracks.take 100 ++ tracks.drop 100 = tracks := List.take_append_drop _ _
      have hdiv : (tracks.drop 100).length / 100 + 1 + 1 = tracks.length / 100 + 1 := by
        simp only [List.length_drop]
        omega
      simp only []
      rw [hcat, hdiv]

theorem playlist_go_spec (tracks : List TrackInfo) :
    get_playlist_tracks (tracks.map some) = (tracks, tracks.length / 100 + 1) := by
  rw [get_playlist_tracks]
  exact playlist_go_spec_aux tracks.length tracks le_rfl

theorem sel_ids_nodup (w : List TrackInfo) :
    ∀ (sel : List Nat), sel.Nodup → (∀ i ∈ sel, i < w.length) →
    ((w.map fun t => t.id).Nodup) →
    (((sel.filterMap fun i => w[i]?).map fun t => t.id)).Nodup := by
  intro sel
  induction sel with
  | nil => intro _ _ _; simp
  | cons i rest ih =>
    intro hnd hb hw
    obtain ⟨hni, hndr⟩ := List.nodup_cons.mp hnd
    have hib : i < w.length := hb i (by simp)
    rw [List.filterMap_cons_some (List.getElem?_eq_getElem hib), List.map_cons]
    rw [List.nodup_cons]
    refine ⟨?_, ih hndr (fun k hk => hb k (List.mem_cons_of_mem i hk)) hw⟩
    intro hmem
    rw [List.mem_map] at hmem
    obtain ⟨t, ht, hid⟩ := hmem
    rw [List.mem_filterMap] at ht
    obtain ⟨j, hj, hgj⟩ := ht
    have hjb : j < w.length := hb j (List.mem_cons_of_mem i hj)
    rw [List.getElem?_eq_getElem hjb] at hgj
    have htj : t = w[j] := by injection hgj with h; exact h.symm
    subst htj
    have hib2 : i < (w.map fun t => t.id).length := by
      rw [List.length_map]; exact hib
    have hjb2 : j < (w.map fun t => t.id).length := by
      rw [List.length_map]; exact hjb
    have heq : (w.map fun t => t.id)[j] = (w.map fun t => t.id)[i] := by
      rw [List.getElem_map, List.getElem_map]
      exact hid
    have := (hw.getElem_inj_iff).mp heq
    subst this
    exact hni hj

theorem select_mem_window (all_tracks : List TrackInfo) (t : TrackInfo)
    (hmem : t ∈ recentWindow all_tracks) :
    t ∈ all_tracks.drop (all_tracks.length - min 50 all_tracks.length) := by
  rw [recentWindow] at hmem
  by_cases h : all_tracks.length ≤ 50
  · rw [if_pos h] at hmem
    have : min 50 all_tracks.length = all_tracks.length := by omega
    rw [this]
    simpa using hmem
  · rw [if_neg h] at hmem
    have h50 : min 50 all_tracks.length = 50 := by omega
    rw [h50]
    have : all_tracks.reverse.take 50 = (all_tracks.rtake 50).reverse := by
      rw [List.rtake_eq_reverse_take_reverse, List.reverse_reverse]
    rw [this, List.mem_reverse] at hmem
    rw [List.rtake] at hmem
    exact hmem

theorem accept_spec : ∀ (rs : List TrackInfo) (acc : List TrackInfo) (seen : List String),
    (∀ t ∈ acc, t.id ∈ seen) →
    ((acc.map fun t => t.id).Nodup) →
    (∀ t ∈ (accept_from_search rs acc seen).1, t ∈ acc ∨ t ∈ rs) ∧
    (∀ t ∈ (accept_from_search rs acc seen).1, t.id ∈ (accept_from_search rs acc seen).2) ∧
    (((accept_from_search rs acc seen).1.map fun t => t.id).Nodup) ∧
    (acc.length < 20 → (accept_from_search rs acc seen).1.length ≤ 20) := by
  intro rs
  induction rs with
  | nil =>
    intro acc seen hsub hnd
    rw [accept_from_search]
    exact ⟨fun t ht => Or.inl ht, hsub, hnd, fun h => le_of_lt h⟩
  | cons t rest ih =>
    intro acc seen hsub hnd
    rw [accept_from_search]
    by_cases hseen : seen.contains t.id
    · rw [if_pos hseen]
      obtain ⟨hprov, hsub2, hnd2, hlen2⟩ := ih acc seen hsub hnd
      refine ⟨?_, hsub2, hnd2, hlen2⟩
      intro u hu
      rcases hprov u hu with h | h
      · exact Or.inl h
      · exact Or.inr (List.mem_cons_of_mem t h)
    · rw [if_neg hseen]
      have hidnotin : t.id ∉ acc.map fun u => u.id := by
        intro hmem
        rw [List.mem_map] at hmem
        obtain ⟨u, hu, hid⟩ := hmem
        apply hseen
        rw [List.elem_iff]
        rw [← hid]
        exact hsub u hu
      have hsub2 : ∀ u ∈ acc ++ [t], u.id ∈ t.id :: seen := by
        intro u hu
        rcases List.mem_append.mp hu with h | h
        · exact List.mem_cons_of_mem _ (hsub u h)
        · rw [List.mem_singleton.mp h]
          exact List.mem_cons_self _ _
      have hnd2 : ((acc ++ [t]).map fun u => u.id).Nodup := by
        rw [List.map_append]
        rw [List.nodup_append]
        refine ⟨hnd, by simp, ?_⟩
        intro x hx hx2
        simp only [List.map_cons, List.map_nil, List.mem_singleton] at hx2
        subst hx2
        exact hidnotin hx
      by_cases hfull : (acc ++ [t]).length ≥ 20
      · rw [if_pos hfull]
        refine ⟨?_, ?_, hnd2, ?_⟩
        · intro u hu
          rcases List.mem_append.mp hu with h | h
          · exact Or.inl h
          · exact Or.inr (by rw [List.mem_singleton.mp h]; exact List.mem_cons_self _ _)
        · exact hsub2
        · intro hlt
          simp only [List.length_append, List.length_singleton] at *
          omega
      · rw [if_neg hfull]
        obtain ⟨hprov, hsub3, hnd3, hlen3⟩ := ih (acc ++ [t]) (t.id :: seen) hsub2 hnd2
        refine ⟨?_, hsub3, hnd3, ?_⟩
        · intro u hu
          rcases hprov u hu with h | h
          · rcases List.mem_append.mp h with h2 | h2
            · exact Or.inl h2
            · exact Or.inr (by rw [List.mem_singleton.mp h2]; exact List.mem_cons_self _ _)
          · exact Or.inr (List.mem_cons_of_mem t h)
        · intro hlt
          apply hlen3
          simp only [List.length_append, List.length_singleton] at *
          omega

theorem go_rec_spec : ∀ (srs : List (Option (List TrackInfo))) (acc : List TrackInfo)
    (seen : List String),
    (∀ t ∈ acc, t.id ∈ seen) →
    ((acc.map fun t => t.id).Nodup) →
    acc.length < 20 →
    (∀ t ∈ (get_recommendations_go srs acc seen).1,
       t ∈ acc ∨ ∃ rs, some rs ∈ srs ∧ t ∈ rs.drop 1) ∧
    (((get_recommendations_go srs acc seen).1.map fun t => t.id).Nodup) ∧
    ((get_recommendations_go srs acc seen).1.length ≤ 20) := by
  intro srs
  induction srs with
  | nil =>
    intro acc seen hsub hnd hlen
    rw [get_recommendations_go]
    exact ⟨fun t ht => Or.inl ht, hnd, le_of_lt hlen⟩
  | cons o rest ih =>
    intro acc seen hsub hnd hlen
    cases o with
    | none =>
      rw [get_recommendations_go]
      obtain ⟨hp, hn, hl⟩ := ih acc seen hsub hnd hlen
      refine ⟨?_, hn, hl⟩
      intro t ht
      rcases hp t ht with h | ⟨rs, hrs, hmem⟩
      · exact Or.inl h
      · exact Or.inr ⟨rs, List.mem_cons_of_mem _ hrs, hmem⟩
    | some rs =>
      rw [get_recommendations_go]
      obtain ⟨hap, has, han, hal⟩ := accept_spec (rs.drop 1) acc seen hsub hnd
      rcases hacc : accept_from_search (rs.drop 1) acc seen with ⟨acc2, seen2⟩
      rw [hacc] at hap has han hal
      simp only at hap has han hal
      simp only []
      by_cases hfull : acc2.length ≥ 20
      · rw [if_pos hfull]
        refine ⟨?_, han, hal hlen⟩
        intro t ht
        rcases hap t ht with h | h
        · exact Or.inl h
        · exact Or.inr ⟨rs, List.mem_cons_self _ _, h⟩
      · rw [if_neg hfull]
        obtain ⟨hp2, hn2, hl2⟩ := ih acc2 seen2 has han (by omega)
        refine ⟨?_, hn2, hl2⟩
        intro t ht
        rcases hp2 t ht with h | ⟨rs2, hrs2, hmem2⟩
        · rcases hap t h with h2 | h2
          · exact Or.inl h2
          · exact Or.inr ⟨rs, List.mem_cons_self _ _, h2⟩
        · exact Or.inr ⟨rs2, List.mem_cons_of_mem _ hrs2, hmem2⟩

/-! ## Claim theorems -/

/-- Claim C1, counterexample.  On a 429 response with `Retry-After: 2`
followed by a success, the client records two sleeps before the second
attempt: the server-specified 2000 ms inside `should_retry_error` and the
computed backoff delay (750 ms for base 1000 ms, attempt 1, jitter draw 0), so
the total sleep between the two attempts is 2750 ms, not the 2000 ms the claim
requires. -/
theorem C1_counterexample :
    ((make_get_request ⟨3, 1000, 30000⟩
        ⟨some ("tok"), true, [], [.resp 429 (some ("2")) true (""), .resp 200 none true ("ok")],
         [0], 0, []⟩).2.sleeps = [2000, 750]) ∧
    2000 + 750 ≠ 2000 := by
  refine ⟨by decide, by decide⟩

/-- Claim C1 (amended): when an attempt receives HTTP 429 and attempts remain,
the client sleeps the server-specified delay (`Retry-After` seconds times
1000, 1000 ms when the header is absent) inside the retry decision, and then
additionally sleeps the computed exponential backoff delay; the total sleep
between the two attempts is the sum of the two, not the server delay alone. -/
theorem C1_rate_limit_sleeps (cfg : BotConfig) (st : ClientState) (tok : String) (m : Nat)
    (hdr : Option String) (p1 : Bool) (b1 : String) (h2 : Option String) (b2 : String)
    (rest : List HttpEvent) (j : Nat) (js : List Nat)
    (hmax : cfg.max_retry_attempts = m + 2)
    (htok : st.access_token = some tok)
    (hfresh : st.token_fresh = true)
    (hev : st.events = .resp 429 hdr p1 b1 :: .resp 200 h2 true b2 :: rest)
    (hjs : st.jitterScript = j :: js) :
    (make_get_request cfg st).1 = .ok b2 ∧
    (make_get_request cfg st).2.sleeps =
      st.sleeps ++ [retryAfterMs hdr, calculate_backoff_delay cfg 1 j] ∧
    (make_get_request cfg st).2.httpAttempts = st.httpAttempts + 2 := by
  obtain ⟨ma, bd, md⟩ := cfg
  obtain ⟨at', fr, rs, ev, jsf, ha, sl⟩ := st
  simp only at htok hfresh hev hmax hjs
  subst htok hfresh hev hmax hjs
  simp +decide [make_get_request, ensure_valid_token, needs_token_refresh, attempt_go,
    build_headers, popEvent, handle_response, should_retry_error, retryAfterMs, popJitter,
    sleepFor, refresh_access_token]

/-- Claim C1, witness for the amended theorem at a concrete run. -/
theorem C1_witness :
    ((3 : Nat) = 1 + 2) ∧
    ((make_get_request ⟨3, 1000, 30000⟩
        ⟨some ("t"), true, [], [.resp 429 (some ("2")) true (""), .resp 200 none true ("ok")],
         [0], 0, []⟩).1 = .ok ("ok") ∧
      (make_get_request ⟨3, 1000, 30000⟩
        ⟨some ("t"), true, [], [.resp 429 (some ("2")) true (""), .resp 200 none true ("ok")],
         [0], 0, []⟩).2.sleeps =
        [] ++ [retryAfterMs (some ("2")), calculate_backoff_delay ⟨3, 1000, 30000⟩ 1 0] ∧
      (make_get_request ⟨3, 1000, 30000⟩
        ⟨some ("t"), true, [], [.resp 429 (some ("2")) true (""), .resp 200 none true ("ok")],
         [0], 0, []⟩).2.httpAttempts = 0 + 2) :=
  ⟨rfl, C1_rate_limit_sleeps ⟨3, 1000, 30000⟩
    ⟨some ("t"), true, [], [.resp 429 (some ("2")) true (""), .resp 200 none true ("ok")],
     [0], 0, []⟩ "t" 1 (some ("2")) true "" none "ok" [] 0 [] rfl rfl rfl rfl rfl⟩

/-- Claim C2, counterexample.  With an empty playlist, a successful metadata
lookup and an add-POST that fails with a network error, the append operation
returns `Ok (Failed msg)` — the underlying client error is not propagated to
the caller as an `Err`. -/
theorem C2_counterexample :
    (add_track_to_collaborative ⟨[], .ok trackA, .error (.NetworkError ("connection reset")), 0⟩
        ("spotify:track:abc")).1 =
      .ok (.Failed ("Failed to add track \x27" ++ trackA.name ++ "\x27: " ++
        spotifyErrorDebug (.NetworkError ("connection reset")))) ∧
    (∀ e2 : PlaylistError,
      (add_track_to_collaborative ⟨[], .ok trackA, .error (.NetworkError ("connection reset")), 0⟩
        ("spotify:track:abc")).1 ≠ .error e2) := by
  have h := add_track_writefail_eq
    ⟨[], .ok trackA, .error (.NetworkError ("connection reset")), 0⟩
    ("spotify:track:abc") trackA (.NetworkError ("connection reset"))
    (by decide) (by decide) rfl rfl
  rw [h]
  exact ⟨rfl, fun e2 hcontra => by simp at hcontra⟩

/-- Claim C2 (amended): when the duplicate pre-check finds the track already
present, the append returns the non-error `AlreadyExists` outcome; when the
track is absent and the add write itself fails with any underlying Spotify
client error, the append does not propagate that error as an `Err` — it
returns the non-error `Failed` outcome carrying a formatted message. -/
theorem C2_write_error_swallowed (env : ManagerEnv) (uri : String) (info : TrackInfo)
    (e : SpotifyError)
    (huri : strStartsWith uri ("spotify:track:") = true)
    (hinfo : env.trackInfoResult = .ok info) :
    (uri ∈ env.playlist → (add_track_to_collaborative env uri).1 = .ok (.AlreadyExists info)) ∧
    (uri ∉ env.playlist → env.postResult = .error e →
      ((add_track_to_collaborative env uri).1 =
        .ok (.Failed ("Failed to add track \x27" ++ info.name ++ "\x27: " ++
          spotifyErrorDebug e)) ∧
       ∀ e2 : PlaylistError, (add_track_to_collaborative env uri).1 ≠ .error e2)) := by
  constructor
  · intro hmem
    rw [add_track_already_eq env uri info huri hmem hinfo]
  · intro hnot hpost
    rw [add_track_writefail_eq env uri info e huri hnot hinfo hpost]
    exact ⟨rfl, fun e2 hcontra => by simp at hcontra⟩

/-- Claim C2, witness for the amended theorem at a concrete environment. -/
theorem C2_witness :
    (("spotify:track:abc" : String) ∈ ["spotify:track:abc"] →
      (add_track_to_collaborative
        ⟨["spotify:track:abc"], .ok trackA, .error (.NetworkError ("x")), 0⟩
        ("spotify:track:abc")).1 = .ok (.AlreadyExists trackA)) ∧
    (("spotify:track:abc" : String) ∉ ["spotify:track:abc"] →
      (⟨["spotify:track:abc"], .ok trackA, .error (.NetworkError ("x")), 0⟩ :
          ManagerEnv).postResult = .error (.NetworkError ("x")) →
      ((add_track_to_collaborative
          ⟨["spotify:track:abc"], .ok trackA, .error (.NetworkError ("x")), 0⟩
          ("spotify:track:abc")).1 =
        .ok (.Failed ("Failed to add track \x27" ++ trackA.name ++ "\x27: " ++
          spotifyErrorDebug (.NetworkError ("x")))) ∧
       ∀ e2 : PlaylistError,
         (add_track_to_collaborative
           ⟨["spotify:track:abc"], .ok trackA, .error (.NetworkError ("x")), 0⟩
           ("spotify:track:abc")).1 ≠ .error e2)) :=
  C2_write_error_swallowed
    ⟨["spotify:track:abc"], .ok trackA, .error (.NetworkError ("x")), 0⟩
    ("spotify:track:abc") trackA (.NetworkError ("x")) (by decide) rfl

/-- Claim C3, counterexample.  On a playlist of exactly 100 well-formed
tracks the paging loop issues 2 page requests (the second request returns the
empty page that stops the loop), while `ceil(100/100) = 1`: the claimed
request count is off at exact multiples of the page size. -/
theorem C3_counterexample :
    (get_playlist_tracks ((List.replicate 100 trackA).map some)).2 = 2 ∧
    (100 + 100 - 1) / 100 = 1 ∧ (2 : Nat) ≠ 1 := by
  refine ⟨?_, by norm_num, by decide⟩
  rw [playlist_go_spec]
  simp

/-- Claim C3 (amended): for a playlist listing of N well-formed track
entries, `get_playlist_tracks` returns exactly the N tracks in their original
order and issues exactly `N / 100 + 1` page requests — that is,
`ceil(N/100)` when 100 does not divide N, and one extra request (including
exactly one request when N = 0) when it does. -/
theorem C3_pagination (tracks : List TrackInfo) :
    (get_playlist_tracks (tracks.map some)).1 = tracks ∧
    (get_playlist_tracks (tracks.map some)).2 = tracks.length / 100 + 1 := by
  rw [playlist_go_spec]
  exact ⟨rfl, rfl⟩

/-- Claim C4 (confirmed): appending the same URI twice to a playlist that
does not yet contain it, with the metadata lookup and the add write
succeeding, issues exactly one add POST in total; the first call returns
`Added` and the second returns `AlreadyExists` (issuing no write). -/
theorem C4_append_idempotent (env : ManagerEnv) (uri : String) (info : TrackInfo)
    (huri : strStartsWith uri ("spotify:track:") = true)
    (hnot : uri ∉ env.playlist)
    (hinfo : env.trackInfoResult = .ok info)
    (hpost : env.postResult = .ok ()) :
    (add_track_to_collaborative env uri).1 = .ok (.Added info) ∧
    ((add_track_to_collaborative env uri).2).postsIssued = env.postsIssued + 1 ∧
    (add_track_to_collaborative ((add_track_to_collaborative env uri).2) uri).1 =
      .ok (.AlreadyExists info) ∧
    ((add_track_to_collaborative ((add_track_to_collaborative env uri).2) uri).2).postsIssued =
      env.postsIssued + 1 := by
  have h1 := add_track_success_eq env uri info huri hnot hinfo hpost
  rw [h1]
  have h2 := add_track_already_eq
    { env with playlist := env.playlist ++ [uri], postsIssued := env.postsIssued + 1 }
    uri info huri (by simp) (by simp [hinfo])
  simp only []
  rw [h2]
  simp

/-- Claim C4, witness at a concrete environment. -/
theorem C4_witness :
    (strStartsWith ("spotify:track:abc") ("spotify:track:") = true) ∧
    (("spotify:track:abc" : String) ∉ (⟨[], .ok trackA, .ok (), 0⟩ : ManagerEnv).playlist) ∧
    ((add_track_to_collaborative ⟨[], .ok trackA, .ok (), 0⟩ ("spotify:track:abc")).1 =
        .ok (.Added trackA) ∧
      ((add_track_to_collaborative ⟨[], .ok trackA, .ok (), 0⟩ ("spotify:track:abc")).2).postsIssued =
        0 + 1 ∧
      (add_track_to_collaborative
        ((add_track_to_collaborative ⟨[], .ok trackA, .ok (), 0⟩ ("spotify:track:abc")).2)
        ("spotify:track:abc")).1 = .ok (.AlreadyExists trackA) ∧
      ((add_track_to_collaborative
        ((add_track_to_collaborative ⟨[], .ok trackA, .ok (), 0⟩ ("spotify:track:abc")).2)
        ("spotify:track:abc")).2).postsIssued = 0 + 1) :=
  ⟨by decide, by decide,
    C4_append_idempotent ⟨[], .ok trackA, .ok (), 0⟩ ("spotify:track:abc") trackA
      (by decide) (by decide) rfl rfl⟩

/-- Claim C5, counterexample.  At attempt 65 with base delay 1000 ms the Rust
`u64` computation `base_delay * 2.pow(attempt - 1)` wraps to 0, so the
function returns the 100 ms floor, while the claim's band
`[0.75, 1.25] * min(max_delay, base * 2^64) = [22500, 37500]` (for
max_delay = 30000) excludes every value `max 100 dp` with `dp` in the band. -/
theorem C5_counterexample :
    calculate_backoff_delay ⟨3, 1000, 30000⟩ 65 0 = 100 ∧
    ¬ ∃ dp : Nat,
        (3 * min (1000 * 2 ^ 64) 30000 ≤ 4 * dp ∧
         4 * dp ≤ 5 * min (1000 * 2 ^ 64) 30000 ∧
         calculate_backoff_delay ⟨3, 1000, 30000⟩ 65 0 = max 100 dp) := by
  have h : calculate_backoff_delay ⟨3, 1000, 30000⟩ 65 0 = 100 := by decide
  refine ⟨h, ?_⟩
  rintro ⟨dp, h1, h2, h3⟩
  rw [h] at h3
  have hmin : min (1000 * 2 ^ 64) 30000 = 30000 := by decide
  rw [hmin] at h1 h2
  have hdp : dp ≤ 100 := by
    rw [h3]
    exact Nat.le_max_right 100 dp
  omega

/-- Claim C5 (amended): for every attempt n ≥ 1 and every jitter draw,
provided the 64-bit computation does not overflow (the exact exponential
`base * 2^(n-1)` and the capped delay plus its quarter stay below `2^64`),
the returned delay equals `max 100 dp` for some `dp` in the closed band
`[0.75, 1.25] * min(base * 2^(n-1), max_delay)`, in exact integer
arithmetic (`3*cap ≤ 4*dp ≤ 5*cap`). -/
theorem C5_backoff_band (cfg : BotConfig) (n j : Nat) (h1 : 1 ≤ n)
    (h2 : cfg.retry_base_delay_ms * 2 ^ (n - 1) < 2 ^ 64)
    (h3 : cfg.retry_max_delay_ms + cfg.retry_max_delay_ms / 4 < 2 ^ 64) :
    ∃ dp : Nat,
      3 * min (cfg.retry_base_delay_ms * 2 ^ (n - 1)) cfg.retry_max_delay_ms ≤ 4 * dp ∧
      4 * dp ≤ 5 * min (cfg.retry_base_delay_ms * 2 ^ (n - 1)) cfg.retry_max_delay_ms ∧
      calculate_backoff_delay cfg n j = max 100 dp := by
  have hcle : min (cfg.retry_base_delay_ms * 2 ^ (n - 1)) cfg.retry_max_delay_ms ≤
      cfg.retry_max_delay_ms := min_le_right _ _
  refine ⟨min (cfg.retry_base_delay_ms * 2 ^ (n - 1)) cfg.retry_max_delay_ms -
      min (cfg.retry_base_delay_ms * 2 ^ (n - 1)) cfg.retry_max_delay_ms / 4 +
      j % (2 * (min (cfg.retry_base_delay_ms * 2 ^ (n - 1)) cfg.retry_max_delay_ms / 4) + 1),
    ?_, ?_, ?_⟩
  · have := Nat.mod_lt j (show 0 < 2 * (min (cfg.retry_base_delay_ms * 2 ^ (n - 1))
      cfg.retry_max_delay_ms / 4) + 1 by omega)
    omega
  · have := Nat.mod_lt j (show 0 < 2 * (min (cfg.retry_base_delay_ms * 2 ^ (n - 1))
      cfg.retry_max_delay_ms / 4) + 1 by omega)
    omega
  · simp only [calculate_backoff_delay, U64MOD]
    rw [Nat.mod_eq_of_lt h2]
    rw [Nat.mod_eq_of_lt (by
      have := Nat.mod_lt j (show 0 < 2 * (min (cfg.retry_base_delay_ms * 2 ^ (n - 1))
        cfg.retry_max_delay_ms / 4) + 1 by omega)
      omega)]
    rw [Nat.max_comm]

/-- Claim C5, witness for the amended theorem at attempt 1, jitter draw 0. -/
theorem C5_witness :
    ((1 : Nat) ≤ 1 ∧ 1000 * 2 ^ (1 - 1) < 2 ^ 64 ∧ 30000 + 30000 / 4 < 2 ^ 64) ∧
    ∃ dp : Nat,
      3 * min (1000 * 2 ^ (1 - 1)) 30000 ≤ 4 * dp ∧
      4 * dp ≤ 5 * min (1000 * 2 ^ (1 - 1)) 30000 ∧
      calculate_backoff_delay ⟨3, 1000, 30000⟩ 1 0 = max 100 dp :=
  ⟨⟨by decide, by decide, by decide⟩,
    C5_backoff_band ⟨3, 1000, 30000⟩ 1 0 (by decide) (by decide) (by decide)⟩

/-- Claim C6 (confirmed): with `max_retry_attempts = 3` and every attempt
answered by HTTP 500, the client issues exactly 3 HTTP attempts, no fourth
request is consumed from the wire, and the call returns the classified
`ApiRequestFailed` error with status 500 from the third attempt. -/
theorem C6_three_attempts_then_error (cfg : BotConfig) (st : ClientState) (tok : String)
    (r1 r2 r3 : Option String) (p1 p2 p3 : Bool) (b1 b2 b3 : String)
    (rest : List HttpEvent)
    (hmax : cfg.max_retry_attempts = 3)
    (htok : st.access_token = some tok)
    (hfresh : st.token_fresh = true)
    (hev : st.events = .resp 500 r1 p1 b1 :: .resp 500 r2 p2 b2 :: .resp 500 r3 p3 b3 :: rest) :
    (make_get_request cfg st).1 = .error (.ApiRequestFailed 500 b3) ∧
    (make_get_request cfg st).2.httpAttempts = st.httpAttempts + 3 ∧
    (make_get_request cfg st).2.events = rest := by
  obtain ⟨ma, bd, md⟩ := cfg
  obtain ⟨at', fr, rs, ev, js, ha, sl⟩ := st
  simp only at htok hfresh hev hmax
  subst htok hfresh hev hmax
  simp +decide [make_get_request, ensure_valid_token, needs_token_refresh, attempt_go,
    build_headers, popEvent, handle_response, should_retry_error, retryAfterMs, popJitter,
    sleepFor, refresh_access_token]

/-- Claim C6, witness at a concrete three-failure run. -/
theorem C6_witness :
    ((make_get_request ⟨3, 1000, 30000⟩
        ⟨some ("t"), true, [], [.resp 500 none true ("e1"), .resp 500 none true ("e2"),
          .resp 500 none true ("e3"), .resp 500 none true ("e4")], [], 0, []⟩).1 =
      .error (.ApiRequestFailed 500 ("e3")) ∧
    (make_get_request ⟨3, 1000, 30000⟩
        ⟨some ("t"), true, [], [.resp 500 none true ("e1"), .resp 500 none true ("e2"),
          .resp 500 none true ("e3"), .resp 500 none true ("e4")], [], 0, []⟩).2.httpAttempts =
      0 + 3 ∧
    (make_get_request ⟨3, 1000, 30000⟩
        ⟨some ("t"), true, [], [.resp 500 none true ("e1"), .resp 500 none true ("e2"),
          .resp 500 none true ("e3"), .resp 500 none true ("e4")], [], 0, []⟩).2.events =
      [.resp 500 none true ("e4")]) :=
  C6_three_attempts_then_error ⟨3, 1000, 30000⟩
    ⟨some ("t"), true, [], [.resp 500 none true ("e1"), .resp 500 none true ("e2"),
      .resp 500 none true ("e3"), .resp 500 none true ("e4")], [], 0, []⟩
    "t" none none none true true true "e1" "e2" "e3" [.resp 500 none true ("e4")]
    rfl rfl rfl rfl

/-- Claim C7 (confirmed): the full-replacement operation rejects an empty URI
list with an error before any client call (the state, including the count of
HTTP attempts issued, is unchanged), and for every non-empty list (with a
valid token held) it issues at least one HTTP attempt carrying the
replacement write. -/
theorem C7_replace_empty_rejected (cfg : BotConfig) (st : ClientState) (tok : String)
    (uris : List String)
    (htok : st.access_token = some tok)
    (hfresh : st.token_fresh = true) :
    replace_discovery_playlist cfg st [] =
      (.error (.ReplaceTracksFailed ("Cannot replace playlist with empty track list")), st) ∧
    (uris ≠ [] →
      st.httpAttempts + 1 ≤ (replace_discovery_playlist cfg st uris).2.httpAttempts) := by
  constructor
  · rw [replace_discovery_playlist]
    simp
  · intro hne
    rw [replace_discovery_playlist, if_neg (by simpa using hne)]
    rw [replace_playlist_tracks, if_neg (by simpa using hne)]
    rw [show ensure_valid_token st = (.ok (), st) from by
      simp [ensure_valid_token, needs_token_refresh, htok, hfresh]]
    simp only []
    have hge := attempt_go_attempts_ge cfg (cfg.max_retry_attempts - 1) 0 st ⟨tok, htok⟩
    rcases hgo : attempt_go cfg 0 (cfg.max_retry_attempts - 1) st with ⟨r, st2⟩
    rw [hgo] at hge
    rcases r with e | v <;> simpa using hge

/-- Claim C7, witness at a concrete state and a singleton URI list. -/
theorem C7_witness :
    ((⟨some ("t"), true, [], [], [], 0, []⟩ : ClientState).access_token = some ("t")) ∧
    (replace_discovery_playlist ⟨3, 1000, 30000⟩ ⟨some ("t"), true, [], [], [], 0, []⟩ [] =
      (.error (.ReplaceTracksFailed ("Cannot replace playlist with empty track list")),
        ⟨some ("t"), true, [], [], [], 0, []⟩)) ∧
    (0 + 1 ≤ (replace_discovery_playlist ⟨3, 1000, 30000⟩
        ⟨some ("t"), true, [], [], [], 0, []⟩ ["spotify:track:abc"]).2.httpAttempts) := by
  have h := C7_replace_empty_rejected ⟨3, 1000, 30000⟩
    ⟨some ("t"), true, [], [], [], 0, []⟩ "t" ["spotify:track:abc"] rfl rfl
  exact ⟨rfl, h.1, h.2 (by decide)⟩

/-- Claim C8, counterexample.  `choose_multiple` samples distinct positions,
not distinct identifiers: on a 2-track playlist whose entries share the id
`a`, the (only possible) sampling outcome `[0, 1]` is a valid
without-replacement draw of `min 5 2 = 2` entries, yet the returned seed list
`[a, a]` contains duplicate identifiers, contradicting the claim. -/
theorem C8_counterexample :
    select_seed_tracks [trackA, trackA] [0, 1] = .ok ["a", "a"] ∧
    ([0, 1] : List Nat).Nodup ∧
    (∀ i ∈ ([0, 1] : List Nat), i < (recentWindow [trackA, trackA]).length) ∧
    ([0, 1] : List Nat).length = min 5 (recentWindow [trackA, trackA]).length ∧
    ¬ (["a", "a"] : List String).Nodup := by
  refine ⟨by decide, by decide, by decide, by decide, by decide⟩

/-- Claim C8 (amended): for every non-empty source list and every valid
sampling outcome (at most `min 5 (window size)` pairwise distinct in-range
positions of the recent window), the seed list has at most 5 entries, every
returned identifier belongs to the last `min 50 N` tracks of the source, and
the identifiers are pairwise distinct provided the identifiers within the
window are pairwise distinct (the sample is without replacement over
positions, not over identifiers). -/
theorem C8_seed_selection (all_tracks : List TrackInfo) (sel : List Nat) (ids : List String)
    (hne : all_tracks ≠ [])
    (hlen : sel.length = min 5 (recentWindow all_tracks).length)
    (hnd : sel.Nodup)
    (hb : ∀ i ∈ sel, i < (recentWindow all_tracks).length)
    (hres : select_seed_tracks all_tracks sel = .ok ids) :
    ids.length ≤ 5 ∧
    (∀ s ∈ ids, ∃ t ∈ all_tracks.drop (all_tracks.length - min 50 all_tracks.length),
      t.id = s) ∧
    (((recentWindow all_tracks).map fun t => t.id).Nodup → ids.Nodup) := by
  rw [select_seed_tracks, if_neg (by simpa using hne)] at hres
  have hids : ids = (sel.filterMap fun i => (recentWindow all_tracks)[i]?).map
      fun t => t.id := by
    injection hres with h
    exact h.symm
  subst hids
  refine ⟨?_, ?_, ?_⟩
  · rw [List.length_map]
    calc (sel.filterMap fun i => (recentWindow all_tracks)[i]?).length
        ≤ sel.length := List.length_filterMap_le _ _
      _ = min 5 (recentWindow all_tracks).length := hlen
      _ ≤ 5 := min_le_left _ _
  · intro s hs
    rw [List.mem_map] at hs
    obtain ⟨t, ht, hid⟩ := hs
    rw [List.mem_filterMap] at ht
    obtain ⟨i, hi, hgi⟩ := ht
    exact ⟨t, select_mem_window all_tracks t (List.getElem?_mem hgi), hid⟩
  · intro hw
    exact sel_ids_nodup (recentWindow all_tracks) sel hnd hb hw

/-- Claim C8, witness for the amended theorem at a 2-track playlist with
distinct identifiers. -/
theorem C8_witness :
    (([trackX, trackY] : List TrackInfo) ≠ []) ∧
    ([0, 1] : List Nat).length = min 5 (recentWindow [trackX, trackY]).length ∧
    ([0, 1] : List Nat).Nodup ∧
    (∀ i ∈ ([0, 1] : List Nat), i < (recentWindow [trackX, trackY]).length) ∧
    (select_seed_tracks [trackX, trackY] [0, 1] = .ok ["x", "y"]) ∧
    ((["x", "y"] : List String).length ≤ 5 ∧
      (∀ s ∈ (["x", "y"] : List String),
        ∃ t ∈ ([trackX, trackY] : List TrackInfo).drop
          (([trackX, trackY] : List TrackInfo).length -
            min 50 ([trackX, trackY] : List TrackInfo).length), t.id = s) ∧
      (((recentWindow [trackX, trackY]).map fun t => t.id).Nodup →
        (["x", "y"] : List String).Nodup)) :=
  ⟨by decide, by decide, by decide, by decide, by decide,
    C8_seed_selection [trackX, trackY] [0, 1] ["x", "y"]
      (by decide) (by decide) (by decide) (by decide) (by decide)⟩

/-- Claim C9, counterexample.  The first search result is only skipped within
its own seed's result list: with seed 1's search returning `[x, y]` and seed
2's returning `[z, x]`, the track `x` — the first result of seed 1's query —
is accepted from seed 2's results, so the candidate list `[y, x]` does
contain the first search result of a seed's query. -/
theorem C9_counterexample :
    get_recommendations [some [trackX, trackY], some [trackZ, trackX]] = .ok [trackY, trackX] ∧
    ([trackX, trackY] : List TrackInfo).head? = some trackX ∧
    trackX ∈ ([trackY, trackX] : List TrackInfo) := by
  refine ⟨by decide, by decide, by decide⟩

/-- Claim C9 (amended): every successful candidate list has pairwise distinct
track identifiers, size at most 20 (accumulation stops once 20 is reached),
and every candidate comes from the tail (all but the first entry) of some
seed's search results — the first result of each search is discarded from
that search, though it may still enter the list via a different seed's
results. -/
theorem C9_candidate_properties (seed_results : List (Option (List TrackInfo)))
    (cands : List TrackInfo)
    (h : get_recommendations seed_results = .ok cands) :
    ((cands.map fun t => t.id).Nodup) ∧ cands.length ≤ 20 ∧
    (∀ t ∈ cands, ∃ rs, some rs ∈ seed_results ∧ t ∈ rs.drop 1) := by
  rw [get_recommendations] at h
  by_cases he : seed_results.isEmpty
  · rw [if_pos he] at h
    exact absurd h (by simp)
  · rw [if_neg he] at h
    simp only [] at h
    rcases hgo : get_recommendations_go seed_results [] [] with ⟨tracks, seen⟩
    rw [hgo] at h
    simp only [] at h
    by_cases ht : tracks.isEmpty
    · rw [if_pos ht] at h
      exact absurd h (by simp)
    · rw [if_neg ht] at h
      have hcands : cands = tracks := by
        injection h with h2
        exact h2.symm
      subst hcands
      obtain ⟨hp, hn, hl⟩ := go_rec_spec seed_results [] []
        (by simp) (by simp) (by norm_num)
      rw [hgo] at hp hn hl
      refine ⟨hn, hl, ?_⟩
      intro t ht2
      rcases hp t ht2 with h3 | h3
      · simp at h3
      · exact h3

/-- Claim C9, witness for the amended theorem at a single-seed run. -/
theorem C9_witness :
    (get_recommendations [some [trackX, trackY]] = .ok [trackY]) ∧
    ((([trackY] : List TrackInfo).map fun t => t.id).Nodup ∧
      ([trackY] : List TrackInfo).length ≤ 20 ∧
      (∀ t ∈ ([trackY] : List TrackInfo),
        ∃ rs, some rs ∈ [some [trackX, trackY]] ∧ t ∈ rs.drop 1)) :=
  ⟨by decide, C9_candidate_properties [some [trackX, trackY]] [trackY] (by decide)⟩

/-- Claim C10, counterexample.  `Retry-After: 9223372036854775808` parses as
the `u64` value `2^63`, but the Rust multiplication by 1000 wraps modulo
`2^64`, producing `retry_after_ms = 0` rather than `v * 1000`. -/
theorem C10_counterexample :
    parse_u64 ("9223372036854775808") = some 9223372036854775808 ∧
    retryAfterMs (some ("9223372036854775808")) = 0 ∧
    9223372036854775808 * 1000 ≠ 0 ∧
    (∀ p : Bool, ∀ b : String, handle_response 429 (some ("9223372036854775808")) p b =
      .error (.RateLimitExceeded 0)) := by
  refine ⟨by decide, by decide, by decide, ?_⟩
  intro p b
  have h0 : retryAfterMs (some ("9223372036854775808")) = 0 := by decide
  simp +decide [handle_response, h0]

/-- Claim C10 (amended): the 429 classification carries
`retry_after_ms = (v * 1000) mod 2^64` when the header parses as the `u64`
value v — equal to `v * 1000` whenever that product fits in a `u64` — and
carries 1000 both when the header is absent and when it is present but not
parseable as a `u64`. -/
theorem C10_retry_after_classification (s : String) (v : Nat) :
    (retryAfterMs none = 1000) ∧
    (parse_u64 s = none → retryAfterMs (some s) = 1000) ∧
    (parse_u64 s = some v → v * 1000 < 2 ^ 64 → retryAfterMs (some s) = v * 1000) ∧
    (∀ (p : Bool) (b : String) (hdr : Option String),
      handle_response 429 hdr p b = .error (.RateLimitExceeded (retryAfterMs hdr))) := by
  refine ⟨by simp [retryAfterMs, U64MOD], ?_, ?_, ?_⟩
  · intro h
    simp [retryAfterMs, h, U64MOD]
  · intro h hlt
    unfold retryAfterMs U64MOD
    rw [Option.some_bind, h, Option.getD_some]
    exact Nat.mod_eq_of_lt hlt
  · intro p b hdr
    simp +decide [handle_response]

/-- Claim C10, witness for the amended theorem at `Retry-After: 2`. -/
theorem C10_witness :
    (retryAfterMs none = 1000) ∧
    (parse_u64 ("abc") = none) ∧ (retryAfterMs (some ("abc")) = 1000) ∧
    (parse_u64 ("2") = some 2) ∧ ((2 : Nat) * 1000 < 2 ^ 64) ∧
    (retryAfterMs (some ("2")) = 2 * 1000) :=
  ⟨(C10_retry_after_classification "abc" 0).1,
    by decide,
    (C10_retry_after_classification "abc" 0).2.1 (by decide),
    by decide, by decide,
    (C10_retry_after_classification "2" 2).2.2.1 (by decide) (by decide)⟩

end Sonic
